import Mathlib

/-!
Verification of the flash-scalper exchange-connectivity and position-risk engine
against its natural-language specification.

The development shallowly embeds the relevant TypeScript source:

* `ParadexKlineBuilder` (src/services/execution/paradex-kline-builder.ts) —
  the trade-to-candle aggregator (`processTrade`, `closeKline`,
  `getKlineStartTime`), with JavaScript numbers modelled as rationals and
  millisecond timestamps as integers.
* the execution-side `ParadexRestClient.request` retry loop
  (same file, second module) — modelled as a pure function over the list of
  per-attempt outcomes (network error / HTTP response / other exception).
* `ParadexTradingAgent` (paradex-agent.ts) — `updatePositionPrices`,
  `checkPositionExitConditions`, `convertPosition` and the close flow of
  `closePosition`, modelled as a step machine over the ordered event stream
  the JavaScript event loop delivers (price updates run synchronously up to
  the first `await`; the awaited close-order response is a separate event).
* `ParadexRestClient.getJWT` (src/services/paradex/rest-client.ts) — the JWT
  cache, modelled as two concurrently interleaved callers whose synchronous
  segments (cache check up to the awaited refresh request, then the response
  handler) are the atomic steps.
* `SymbolMapper` (symbol-mapper.ts) — strings modelled as lists of characters.
-/

namespace FlashScalper

/-- Market identifiers; the TypeScript code keys its maps by market strings. -/
abbrev Market := String

/-- Trade event consumed by the kline builder (interface ParadexTrade in
paradex-websocket-client.ts; the numeric string fields `price` and `size` are
modelled as rationals, `timestamp` in milliseconds as an integer). -/
structure ParadexTrade where
  market : Market
  price : ℚ
  size : ℚ
  timestamp : ℤ
  deriving DecidableEq

/-- Candlestick record (interface Kline in paradex-kline-builder.ts).  The
`open` field is renamed `openP` because `open` is a Lean keyword. -/
structure Kline where
  openTime : ℤ
  openP : ℚ
  high : ℚ
  low : ℚ
  close : ℚ
  volume : ℚ
  closeTime : ℤ
  deriving DecidableEq

/-- Mutable state of `ParadexKlineBuilder`: the per-market closed-candle
history `klines` and the per-market open candle `currentKline` (the two
`Map`s of the class, modelled as functions from market names). -/
structure BuilderState where
  klines : Market → List Kline
  currentKline : Market → Option Kline

/-- State of a freshly constructed `ParadexKlineBuilder` (both maps empty). -/
def initialBuilder : BuilderState :=
  { klines := fun _ => [], currentKline := fun _ => none }

/-- ParadexKlineBuilder.getKlineStartTime: `Math.floor(timestamp / intervalMs)
* intervalMs`; JavaScript floor division is `Int.fdiv`. -/
def getKlineStartTime (intervalMs : ℤ) (timestamp : ℤ) : ℤ :=
  (Int.fdiv timestamp intervalMs) * intervalMs

/-- ParadexKlineBuilder.closeKline: append the closed candle to the market
history and drop the oldest entry (`Array.shift`) when the history exceeds
`maxKlines`. -/
def closeKline (maxKlines : ℕ) (market : Market) (kline : Kline)
    (s : BuilderState) : BuilderState :=
  let marketKlines := s.klines market ++ [kline]
  let limited := if marketKlines.length > maxKlines then marketKlines.tail else marketKlines
  { s with klines := fun m => if m = market then limited else s.klines m }

/-- ParadexKlineBuilder.processTrade: if no open candle exists for the market
or its `openTime` differs from the computed bucket, close the previous candle
(if any) and start a fresh one; otherwise fold the trade into the open
candle. -/
def processTrade (intervalMs : ℤ) (maxKlines : ℕ) (s : BuilderState)
    (trade : ParadexTrade) : BuilderState :=
  let market := trade.market
  let price := trade.price
  let size := trade.size
  let klineStartTime := getKlineStartTime intervalMs trade.timestamp
  match s.currentKline market with
  | some currentKline =>
    if currentKline.openTime = klineStartTime then
      let updated : Kline :=
        { currentKline with
          high := max currentKline.high price
          low := min currentKline.low price
          close := price
          volume := currentKline.volume + size }
      { s with currentKline := fun m => if m = market then some updated else s.currentKline m }
    else
      let s' := closeKline maxKlines market currentKline s
      let fresh : Kline :=
        { openTime := klineStartTime, openP := price, high := price, low := price,
          close := price, volume := size, closeTime := klineStartTime + intervalMs - 1 }
      { s' with currentKline := fun m => if m = market then some fresh else s.currentKline m }
  | none =>
    let fresh : Kline :=
      { openTime := klineStartTime, openP := price, high := price, low := price,
        close := price, volume := size, closeTime := klineStartTime + intervalMs - 1 }
    { s with currentKline := fun m => if m = market then some fresh else s.currentKline m }

/-!
The execution-side `ParadexRestClient.request` retry loop
(paradex-kline-builder.ts companion module, lines 301 to 392).  Each loop
iteration performs one `fetch`; we model the environment by the list of
outcomes the successive attempts would observe.
-/

/-- Outcome of a single `fetch` attempt inside `ParadexRestClient.request`:
an HTTP response was received (`ok` mirrors `response.ok`), the attempt
failed at network level before any response (`fetch failed` / `timeout` /
`AbortError`), or a non-network exception was thrown. -/
inductive AttemptOutcome where
  | response (ok : Bool)
  | networkError
  | otherError
  deriving DecidableEq

/-- Result of the `request` loop as seen by the caller. -/
inductive ReqResult where
  | success
  | httpError
  | netError
  | otherFailure
  | noOutcome
  deriving DecidableEq

/-- ParadexRestClient.request (execution module): the retry loop.  Given the
configured `retries`, the current `attempt` index and the outcomes the
remaining attempts would observe, it returns the final result together with
the number of HTTP requests actually sent.  A non-ok HTTP response retries
while `attempt < retries`; a network-level error retries while
`attempt < retries`; any other exception is rethrown at once; an ok response
returns immediately. -/
def requestRun (retries : ℕ) (attempt : ℕ) : List AttemptOutcome → ReqResult × ℕ
  | [] => (ReqResult.noOutcome, 0)
  | o :: rest =>
    match o with
    | AttemptOutcome.response true => (ReqResult.success, 1)
    | AttemptOutcome.response false =>
      if attempt < retries then
        let r := requestRun retries (attempt + 1) rest
        (r.1, r.2 + 1)
      else
        (ReqResult.httpError, 1)
    | AttemptOutcome.networkError =>
      if attempt < retries then
        let r := requestRun retries (attempt + 1) rest
        (r.1, r.2 + 1)
      else
        (ReqResult.netError, 1)
    | AttemptOutcome.otherError => (ReqResult.otherFailure, 1)

/-- ParadexRestClient.placeMarketOrder posts `/v1/orders` through `request`
with the default `retries = 3`; this is the number of order-placement HTTP
requests actually sent for a given list of attempt outcomes. -/
def placeMarketOrderAttempts (outcomes : List AttemptOutcome) : ℕ :=
  (requestRun 3 0 outcomes).2

/-!
The `ParadexTradingAgent` position-risk monitor (paradex-agent.ts).
-/

/-- Position side. -/
inductive Side where
  | long
  | short
  deriving DecidableEq

/-- Reason string passed to `closePosition`. -/
inductive CloseReason where
  | stop_loss
  | take_profit
  | max_hold_time
  deriving DecidableEq

/-- Status of a Paradex order (type ParadexOrderStatus in types.ts); the
constructor `open_` models the literal string value of an order that is
resting open, `partFilled` the partially-filled value. -/
inductive ParadexOrderStatus where
  | open_
  | filled
  | partFilled
  | cancelled
  | rejected
  deriving DecidableEq

/-- Internal Position record as constructed by
`ParadexTradingAgent.convertPosition` (the string identifier fields `id`,
`agentId` and `userId` carry no behaviour and are omitted). -/
structure Position where
  symbol : Market
  side : Side
  size : ℚ
  entryPrice : ℚ
  currentPrice : ℚ
  leverage : ℚ
  marginUsed : ℚ
  unrealizedPnl : ℚ
  unrealizedROE : ℚ
  highestROE : ℚ
  lowestROE : ℚ
  openedAt : ℤ
  updatedAt : ℤ
  deriving DecidableEq

/-- The exit-rule part of ScalperConfig read by the risk monitor. -/
structure ScalperConfig where
  stopLossROE : ℚ
  takeProfitROE : ℚ
  maxHoldTimeMinutes : ℚ
  deriving DecidableEq

/-- Exchange position snapshot (interface ParadexPosition in types.ts;
numeric strings modelled as rationals, only the fields `convertPosition`
reads are kept). -/
structure ParadexPosAPI where
  market : Market
  side : Side
  size : ℚ
  entry_price : ℚ
  mark_price : ℚ
  unrealized_pnl : ℚ
  margin_used : ℚ
  leverage : ℚ
  timestamp : ℤ
  deriving DecidableEq

/-- ParadexTradingAgent.convertPosition: a zero-size snapshot yields no
position; otherwise the position starts with
`highestROE = lowestROE = unrealizedROE = unrealizedPnl / marginUsed * 100`.
The argument `now` stands for the `Date.now()` call filling `updatedAt`. -/
def convertPosition (now : ℤ) (apiPos : ParadexPosAPI) : Option Position :=
  if apiPos.size = 0 then
    none
  else
    let unrealizedROE := apiPos.unrealized_pnl / apiPos.margin_used * 100
    some
      { symbol := apiPos.market
        side := apiPos.side
        size := apiPos.size
        entryPrice := apiPos.entry_price
        currentPrice := apiPos.mark_price
        leverage := apiPos.leverage
        marginUsed := apiPos.margin_used
        unrealizedPnl := apiPos.unrealized_pnl
        unrealizedROE := unrealizedROE
        highestROE := unrealizedROE
        lowestROE := unrealizedROE
        openedAt := apiPos.timestamp
        updatedAt := now }

/-- ParadexTradingAgent.updatePositionPrices, restricted to the mutation of
one position: recompute price, P&L and ROE and fold the running extrema. -/
def updatePositionPrices (now : ℤ) (price : ℚ) (p : Position) : Position :=
  let priceChange :=
    if p.side = Side.long then price - p.entryPrice else p.entryPrice - price
  let unrealizedPnl := priceChange * p.size
  let unrealizedROE := unrealizedPnl / p.marginUsed * 100
  { p with
    currentPrice := price
    unrealizedPnl := unrealizedPnl
    unrealizedROE := unrealizedROE
    highestROE := max p.highestROE unrealizedROE
    lowestROE := min p.lowestROE unrealizedROE
    updatedAt := now }

/-- ParadexTradingAgent.checkPositionExitConditions: the sequential
`if ... return` cascade — stop loss, then take profit, then max hold time —
expressed as the reason of the (unique) close it triggers, if any. -/
def checkPositionExitConditions (config : ScalperConfig) (now : ℤ)
    (position : Position) : Option CloseReason :=
  if position.unrealizedROE ≤ config.stopLossROE then
    some CloseReason.stop_loss
  else if position.unrealizedROE ≥ config.takeProfitROE then
    some CloseReason.take_profit
  else
    let holdTimeMinutes : ℚ := ((now - position.openedAt : ℤ) : ℚ) / 60000
    if holdTimeMinutes ≥ config.maxHoldTimeMinutes then
      some CloseReason.max_hold_time
    else
      none

/-- Single-market agent state: the live-position entry of `state.positions`
for one market, the close orders already sent whose `placeMarketOrder`
response is still awaited (FIFO, in send order), and counters. -/
structure AgentState where
  positions : Option Position
  pendingCloses : List CloseReason
  closeOrdersPlaced : ℕ
  totalTrades : ℕ
  deriving DecidableEq

/-- Events processed by the agent event loop for one market: a ticker price
update (handled synchronously through `updatePositionPrices`,
`checkPositionExitConditions` and, when an exit condition fires, the
synchronous prefix of `closePosition` up to the awaited
`placeMarketOrder` call), and the arrival of the response to the oldest
outstanding close order (the continuation of `closePosition` after its
`await`; `status` is the `status` field of the returned order, which the
code never inspects). -/
inductive AgentEvent where
  | priceUpdate (now : ℤ) (price : ℚ)
  | closeResponse (success : Bool) (status : ParadexOrderStatus)
  deriving DecidableEq

/-- One step of the agent event loop (paradex-agent.ts).  On a price update
for a market with a live position the exit conditions are evaluated on the
updated position; if one fires, `closePosition` sends a reduce-only market
order at once (the position is neither removed nor marked — the source has
no CLOSING state).  On a close response, `closePosition` resumes: on
`success` it updates the trade counters and deletes the position; otherwise
it only logs. -/
def agentStep (config : ScalperConfig) (s : AgentState) : AgentEvent → AgentState
  | AgentEvent.priceUpdate now price =>
    match s.positions with
    | none => s
    | some position =>
      let position' := updatePositionPrices now price position
      match checkPositionExitConditions config now position' with
      | none => { s with positions := some position' }
      | some reason =>
        { s with
          positions := some position'
          pendingCloses := s.pendingCloses ++ [reason]
          closeOrdersPlaced := s.closeOrdersPlaced + 1 }
  | AgentEvent.closeResponse success _status =>
    match s.pendingCloses with
    | [] => s
    | _ :: rest =>
      if success then
        { s with
          positions := none
          pendingCloses := rest
          totalTrades := s.totalTrades + 1 }
      else
        { s with pendingCloses := rest }

/-- Run the agent over an ordered event stream. -/
def agentRun (config : ScalperConfig) (s : AgentState)
    (events : List AgentEvent) : AgentState :=
  events.foldl (agentStep config) s

/-!
The JWT credential cache of `ParadexRestClient`
(src/services/paradex/rest-client.ts, `getJWT` and `request`).

`getJWT` runs synchronously from its cache check up to the awaited `/auth/jwt`
request, then suspends; the response handler that fills the cache is a second
synchronous segment.  Concurrent authenticated calls interleave exactly at
these `await` points, so the model steps two caller tasks over the shared
cache, one synchronous segment at a time.
-/

/-- Shared state of the JWT cache: the cached token (abstracted to a number),
its expiry, and the number of `/auth/jwt` refresh requests issued so far. -/
structure JwtClientState where
  jwtToken : Option ℕ
  jwtExpiry : Option ℤ
  refreshRequests : ℕ
  deriving DecidableEq

/-- Cache check at the top of `getJWT`:
`this.jwtToken && this.jwtExpiry && Date.now() < this.jwtExpiry - 60000`
(the refresh skew is the hard-coded 60000 ms). -/
def jwtCacheValid (s : JwtClientState) (now : ℤ) : Bool :=
  match s.jwtToken, s.jwtExpiry with
  | some _, some e => decide (now < e - 60000)
  | _, _ => false

/-- Program counter of one `getJWT` caller: before the cache check, suspended
on the awaited refresh request, or finished. -/
inductive JwtPC where
  | start
  | awaiting
  | done
  deriving DecidableEq

/-- Two concurrent authenticated callers (`A` and `B`) sharing one
`ParadexRestClient` instance. -/
structure JwtSystem where
  shared : JwtClientState
  pcA : JwtPC
  pcB : JwtPC
  deriving DecidableEq

/-- Scheduler events: `run t now` lets task `t` (`true` for A, `false` for B)
execute its initial synchronous segment at wall-clock `now`; `respond t jwt
expiresAt` delivers the refresh response awaited by task `t`, whose handler
stores `jwt` and `expires_at` into the shared cache. -/
inductive JwtEvent where
  | run (t : Bool) (now : ℤ)
  | respond (t : Bool) (jwt : ℕ) (expiresAt : ℤ)
  deriving DecidableEq

/-- Initial synchronous segment of `getJWT` for one task: return the cached
token when still valid, otherwise issue a refresh request and suspend. -/
def jwtStartSegment (s : JwtClientState) (now : ℤ) : JwtClientState × JwtPC :=
  if jwtCacheValid s now then
    (s, JwtPC.done)
  else
    ({ s with refreshRequests := s.refreshRequests + 1 }, JwtPC.awaiting)

/-- Response segment of `getJWT`: store the received token and expiry. -/
def jwtRespondSegment (s : JwtClientState) (jwt : ℕ) (expiresAt : ℤ) :
    JwtClientState × JwtPC :=
  ({ s with jwtToken := some jwt, jwtExpiry := some expiresAt }, JwtPC.done)

/-- One interleaving step of the two-caller system. -/
def jwtSysStep (sys : JwtSystem) : JwtEvent → JwtSystem
  | JwtEvent.run t now =>
    if t then
      match sys.pcA with
      | JwtPC.start =>
        let r := jwtStartSegment sys.shared now
        { sys with shared := r.1, pcA := r.2 }
      | _ => sys
    else
      match sys.pcB with
      | JwtPC.start =>
        let r := jwtStartSegment sys.shared now
        { sys with shared := r.1, pcB := r.2 }
      | _ => sys
  | JwtEvent.respond t jwt expiresAt =>
    if t then
      match sys.pcA with
      | JwtPC.awaiting =>
        let r := jwtRespondSegment sys.shared jwt expiresAt
        { sys with shared := r.1, pcA := r.2 }
      | _ => sys
    else
      match sys.pcB with
      | JwtPC.awaiting =>
        let r := jwtRespondSegment sys.shared jwt expiresAt
        { sys with shared := r.1, pcB := r.2 }
      | _ => sys

/-- Run the two-caller system over a schedule. -/
def jwtSysRun (sys : JwtSystem) (events : List JwtEvent) : JwtSystem :=
  events.foldl jwtSysStep sys

/-!
SymbolMapper (symbol-mapper.ts); strings are modelled as lists of characters.
-/

/-- Characters of the string literal USDT. -/
def usdtChars : List Char := ['U', 'S', 'D', 'T']

/-- Characters of the string literal -USD-PERP. -/
def dashUsdPerpChars : List Char := ['-', 'U', 'S', 'D', '-', 'P', 'E', 'R', 'P']

/-- SymbolMapper.toParadex: `symbol.replace(/USDT$/, '')` strips a trailing
USDT when present (the regex is anchored at the end of the string), then the
suffix -USD-PERP is appended. -/
def toParadex (symbol : List Char) : List Char :=
  let base :=
    if symbol.drop (symbol.length - 4) = usdtChars then
      symbol.take (symbol.length - 4)
    else
      symbol
  base ++ dashUsdPerpChars

/-- SymbolMapper.fromParadex: `market.split('-')[0]` is the longest prefix
free of the separator, then USDT is appended. -/
def fromParadex (market : List Char) : List Char :=
  market.takeWhile (fun c => c != '-') ++ usdtChars

/-!
Concrete fixtures used to instantiate the theorems below.
-/

/-- Exit-rule configuration used in the concrete runs: stop loss at -5 percent
ROE, take profit at +5 percent ROE, max hold 60 minutes. -/
def sampleConfig : ScalperConfig :=
  { stopLossROE := -5, takeProfitROE := 5, maxHoldTimeMinutes := 60 }

/-- Live long position: entry 100, size 1, margin 10, opened at t = 0. -/
def samplePosition : Position :=
  { symbol := "ETH-USD-PERP", side := Side.long, size := 1, entryPrice := 100,
    currentPrice := 100, leverage := 10, marginUsed := 10, unrealizedPnl := 0,
    unrealizedROE := 0, highestROE := 0, lowestROE := 0, openedAt := 0, updatedAt := 0 }

/-- Agent state holding `samplePosition` with no close in flight. -/
def sampleAgentState : AgentState :=
  { positions := some samplePosition, pendingCloses := [], closeOrdersPlaced := 0,
    totalTrades := 0 }

/-- Exchange position snapshot: long 1 at entry 100, mark 105, pnl 5 on
margin 10 (so ROE is 50 percent). -/
def sampleApiPos : ParadexPosAPI :=
  { market := "BTC-USD-PERP", side := Side.long, size := 1, entry_price := 100,
    mark_price := 105, unrealized_pnl := 5, margin_used := 10, leverage := 10,
    timestamp := 0 }

/-- The position `convertPosition 7 sampleApiPos` produces. -/
def sampleConverted : Position :=
  { symbol := "BTC-USD-PERP", side := Side.long, size := 1, entryPrice := 100,
    currentPrice := 105, leverage := 10, marginUsed := 10, unrealizedPnl := 5,
    unrealizedROE := 50, highestROE := 50, lowestROE := 50, openedAt := 0, updatedAt := 7 }

/-!
Theorems.
-/

/-- C8: when a price update is processed for a symbol with a live position,
exit conditions are evaluated in fixed priority order — stop loss
(`unrealizedROE ≤ stopLossROE`), then take profit
(`unrealizedROE ≥ takeProfitROE`), then max hold
(`(now - openedAt) / 60000 ≥ maxHoldTimeMinutes` minutes) — only the first
matching condition triggers a close, at most one close order is placed per
evaluation, and the close (if any) carries the reason the cascade selects on
the freshly updated position. -/
theorem claim_C8_exit_priority (config : ScalperConfig) (now : ℤ) (p : Position) :
    (p.unrealizedROE ≤ config.stopLossROE →
      checkPositionExitConditions config now p = some CloseReason.stop_loss) ∧
    (config.stopLossROE < p.unrealizedROE → config.takeProfitROE ≤ p.unrealizedROE →
      checkPositionExitConditions config now p = some CloseReason.take_profit) ∧
    (config.stopLossROE < p.unrealizedROE → p.unrealizedROE < config.takeProfitROE →
      config.maxHoldTimeMinutes ≤ ((now - p.openedAt : ℤ) : ℚ) / 60000 →
      checkPositionExitConditions config now p = some CloseReason.max_hold_time) ∧
    (config.stopLossROE < p.unrealizedROE → p.unrealizedROE < config.takeProfitROE →
      ((now - p.openedAt : ℤ) : ℚ) / 60000 < config.maxHoldTimeMinutes →
      checkPositionExitConditions config now p = none) ∧
    (∀ (s : AgentState) (price : ℚ),
      (agentStep config s (AgentEvent.priceUpdate now price)).closeOrdersPlaced ≤
        s.closeOrdersPlaced + 1) ∧
    (∀ (s : AgentState) (price : ℚ) (pos : Position),
      s.positions = some pos →
      (agentStep config s (AgentEvent.priceUpdate now price)).pendingCloses =
        s.pendingCloses ++
          (checkPositionExitConditions config now (updatePositionPrices now price pos)).toList) := by
  refine ⟨?_, ?_, ?_, ?_, ?_, ?_⟩
  · intro h
    simp only [checkPositionExitConditions]
    rw [if_pos h]
  · intro h1 h2
    simp only [checkPositionExitConditions]
    rw [if_neg (not_le.mpr h1), if_pos h2]
  · intro h1 h2 h3
    simp only [checkPositionExitConditions]
    rw [if_neg (not_le.mpr h1), if_neg (not_le.mpr h2), if_pos h3]
  · intro h1 h2 h3
    simp only [checkPositionExitConditions]
    rw [if_neg (not_le.mpr h1), if_neg (not_le.mpr h2), if_neg (not_le.mpr h3)]
  · intro s price
    cases hp : s.positions with
    | none => simp [agentStep, hp]
    | some pos =>
      cases hc : checkPositionExitConditions config now (updatePositionPrices now price pos) with
      | none => simp [agentStep, hp, hc]
      | some r => simp [agentStep, hp, hc]
  · intro s price pos hp
    cases hc : checkPositionExitConditions config now (updatePositionPrices now price pos) with
    | none => simp [agentStep, hp, hc]
    | some r => simp [agentStep, hp, hc]

/-- Witness for C8: with stop loss -5, take profit 5 and max hold 60 minutes,
a position at -500 percent ROE triggers the stop loss even though no other rule
matches, one at +50 percent the take profit, one at 0 percent held 120 minutes
the max hold, and a fresh one nothing; one price update appends at most one
close. -/
theorem claim_C8_exit_priority_witness :
    checkPositionExitConditions sampleConfig 1000
        { samplePosition with unrealizedROE := -500 } = some CloseReason.stop_loss ∧
    checkPositionExitConditions sampleConfig 1000
        { samplePosition with unrealizedROE := 50 } = some CloseReason.take_profit ∧
    checkPositionExitConditions sampleConfig 7200000
        samplePosition = some CloseReason.max_hold_time ∧
    checkPositionExitConditions sampleConfig 0 samplePosition = none ∧
    (agentStep sampleConfig sampleAgentState
        (AgentEvent.priceUpdate 1000 50)).closeOrdersPlaced ≤
      sampleAgentState.closeOrdersPlaced + 1 ∧
    (agentStep sampleConfig sampleAgentState
        (AgentEvent.priceUpdate 1000 50)).pendingCloses =
      sampleAgentState.pendingCloses ++
        (checkPositionExitConditions sampleConfig 1000
          (updatePositionPrices 1000 50 samplePosition)).toList :=
  ⟨(claim_C8_exit_priority sampleConfig 1000 _).1
     (by norm_num [sampleConfig, samplePosition]),
   (claim_C8_exit_priority sampleConfig 1000 _).2.1
     (by norm_num [sampleConfig, samplePosition]) (by norm_num [sampleConfig, samplePosition]),
   (claim_C8_exit_priority sampleConfig 7200000 _).2.2.1
     (by norm_num [sampleConfig, samplePosition]) (by norm_num [sampleConfig, samplePosition])
     (by norm_num [sampleConfig, samplePosition]),
   (claim_C8_exit_priority sampleConfig 0 _).2.2.2.1
     (by norm_num [sampleConfig, samplePosition]) (by norm_num [sampleConfig, samplePosition])
     (by norm_num [sampleConfig, samplePosition]),
   (claim_C8_exit_priority sampleConfig 1000 samplePosition).2.2.2.2.1 sampleAgentState 50,
   (claim_C8_exit_priority sampleConfig 1000 samplePosition).2.2.2.2.2 sampleAgentState 50
     samplePosition (by norm_num [sampleAgentState])⟩

/-- C9: after any price update, and at creation from an exchange snapshot,
`lowestROE ≤ unrealizedROE ≤ highestROE` holds. -/
theorem claim_C9_roe_bounds :
    (∀ (now : ℤ) (price : ℚ) (p : Position),
      (updatePositionPrices now price p).lowestROE ≤
          (updatePositionPrices now price p).unrealizedROE ∧
        (updatePositionPrices now price p).unrealizedROE ≤
          (updatePositionPrices now price p).highestROE) ∧
    (∀ (now : ℤ) (apiPos : ParadexPosAPI) (p : Position),
      convertPosition now apiPos = some p →
      p.lowestROE ≤ p.unrealizedROE ∧ p.unrealizedROE ≤ p.highestROE) := by
  constructor
  · intro now price p
    exact ⟨min_le_right _ _, le_max_right _ _⟩
  · intro now apiPos p h
    unfold convertPosition at h
    split at h
    · exact Option.noConfusion h
    · obtain rfl := Option.some.inj h
      exact ⟨le_rfl, le_rfl⟩

/-- Witness for C9: the bounds hold for a concrete price update on
`samplePosition` and for the position converted from `sampleApiPos`. -/
theorem claim_C9_roe_bounds_witness :
    ((updatePositionPrices 1000 50 samplePosition).lowestROE ≤
        (updatePositionPrices 1000 50 samplePosition).unrealizedROE ∧
      (updatePositionPrices 1000 50 samplePosition).unrealizedROE ≤
        (updatePositionPrices 1000 50 samplePosition).highestROE) ∧
    (sampleConverted.lowestROE ≤ sampleConverted.unrealizedROE ∧
      sampleConverted.unrealizedROE ≤ sampleConverted.highestROE) :=
  ⟨claim_C9_roe_bounds.1 1000 50 samplePosition,
   claim_C9_roe_bounds.2 7 sampleApiPos sampleConverted
     (by norm_num [convertPosition, sampleApiPos, sampleConverted])⟩

/-- C10: for every symbol of the form BASE ++ USDT with BASE non-empty and
free of the dash separator, `fromParadex (toParadex symbol) = symbol`. -/
theorem claim_C10_symbol_roundtrip (base : List Char) (_hne : base ≠ [])
    (hdash : '-' ∉ base) :
    fromParadex (toParadex (base ++ usdtChars)) = base ++ usdtChars := by
  have hlen : (base ++ usdtChars).length - 4 = base.length := by
    simp [usdtChars]
  have hdrop : (base ++ usdtChars).drop ((base ++ usdtChars).length - 4) = usdtChars := by
    rw [hlen, List.drop_left]
  have htake : (base ++ usdtChars).take ((base ++ usdtChars).length - 4) = base := by
    rw [hlen, List.take_left]
  have hto : toParadex (base ++ usdtChars) = base ++ dashUsdPerpChars := by
    unfold toParadex
    rw [if_pos hdrop, htake]
  rw [hto]
  unfold fromParadex
  have hpos : ∀ a ∈ base, (a != '-') = true := by
    intro a ha
    have : a ≠ '-' := fun h => hdash (h ▸ ha)
    simpa using this
  rw [show base ++ dashUsdPerpChars = base ++ ('-' :: ['U', 'S', 'D', '-', 'P', 'E', 'R', 'P'])
        from rfl,
      List.takeWhile_append_of_pos hpos]
  simp [List.takeWhile]

/-- Witness for C10: the round trip at the symbol ETHUSDT. -/
theorem claim_C10_symbol_roundtrip_witness :
    fromParadex (toParadex (['E', 'T', 'H'] ++ usdtChars)) = ['E', 'T', 'H'] ++ usdtChars :=
  claim_C10_symbol_roundtrip ['E', 'T', 'H'] (by decide) (by decide)

/-- C1, counterexample: in `ParadexRestClient.request` a received HTTP error
response (`response.ok` false) is retried whenever attempts remain, so an
order placement whose first attempt receives an error response and whose
second attempt succeeds sends two HTTP requests — the claim that a request is
never retried once any response has been received would demand exactly one. -/
theorem claim_C1_counterexample :
    requestRun 3 0 [AttemptOutcome.response false, AttemptOutcome.response true] =
      (ReqResult.success, 2) ∧
    placeMarketOrderAttempts [AttemptOutcome.response false, AttemptOutcome.response true] ≠ 1 := by
  constructor
  · decide
  · decide

/-- C1, amended: order placement (and every request through
`ParadexRestClient.request`) is retried both for network-level failures that
occur before any response is received and after receiving an HTTP
error-status response, as long as `attempt < retries`; an ok response returns
at once with a single request sent, a non-network exception aborts without
retry, and once attempts are exhausted an error response is surfaced without
a further request. -/
theorem claim_C1_amended_retry_policy (retries attempt : ℕ) (rest : List AttemptOutcome) :
    (requestRun retries attempt (AttemptOutcome.response true :: rest) =
      (ReqResult.success, 1)) ∧
    (attempt < retries →
      requestRun retries attempt (AttemptOutcome.response false :: rest) =
        ((requestRun retries (attempt + 1) rest).1,
          (requestRun retries (attempt + 1) rest).2 + 1)) ∧
    (attempt < retries →
      requestRun retries attempt (AttemptOutcome.networkError :: rest) =
        ((requestRun retries (attempt + 1) rest).1,
          (requestRun retries (attempt + 1) rest).2 + 1)) ∧
    (¬ attempt < retries →
      requestRun retries attempt (AttemptOutcome.response false :: rest) =
        (ReqResult.httpError, 1)) ∧
    (requestRun retries attempt (AttemptOutcome.otherError :: rest) =
      (ReqResult.otherFailure, 1)) := by
  refine ⟨rfl, ?_, ?_, ?_, rfl⟩
  · intro h
    simp [requestRun, h]
  · intro h
    simp [requestRun, h]
  · intro h
    simp [requestRun, h]

/-- Witness for C1 (amended): at the default `retries = 3` of
`placeMarketOrder`, an initial error response or network error leads to a
second request, while a success or other exception stops after one. -/
theorem claim_C1_amended_retry_policy_witness :
    requestRun 3 0 [AttemptOutcome.response true] = (ReqResult.success, 1) ∧
    requestRun 3 0 [AttemptOutcome.response false] =
      ((requestRun 3 1 []).1, (requestRun 3 1 []).2 + 1) ∧
    requestRun 3 0 [AttemptOutcome.networkError] =
      ((requestRun 3 1 []).1, (requestRun 3 1 []).2 + 1) ∧
    requestRun 3 3 [AttemptOutcome.response false] = (ReqResult.httpError, 1) ∧
    requestRun 3 0 [AttemptOutcome.otherError] = (ReqResult.otherFailure, 1) :=
  ⟨(claim_C1_amended_retry_policy 3 0 []).1,
   (claim_C1_amended_retry_policy 3 0 []).2.1 (by decide),
   (claim_C1_amended_retry_policy 3 0 []).2.2.1 (by decide),
   (claim_C1_amended_retry_policy 3 3 []).2.2.2.1 (by decide),
   (claim_C1_amended_retry_policy 3 0 []).2.2.2.2⟩

/-- C2, counterexample: the source has no CLOSING state, so after a first
price update has triggered a close order (stop loss at -500 percent ROE), a
second price update arriving before the close-order response triggers a
second close order for the same position: two updates and no response yield
`closeOrdersPlaced = 2`, where the claim demands at most one. -/
theorem claim_C2_counterexample :
    (agentRun sampleConfig sampleAgentState
        [AgentEvent.priceUpdate 1000 50, AgentEvent.priceUpdate 2000 50]).closeOrdersPlaced
      = 2 := by
  norm_num [agentRun, agentStep, updatePositionPrices, checkPositionExitConditions,
    sampleAgentState, samplePosition, sampleConfig]

/-- C2, amended: between the close trigger and the close-order response the
position stays in the live set with no guard state, so every further price
update for its symbol that satisfies an exit condition places one more close
order — regardless of how many close orders are already outstanding. -/
theorem claim_C2_amended_no_closing_guard (config : ScalperConfig) (s : AgentState)
    (now : ℤ) (price : ℚ) (pos : Position) (r : CloseReason)
    (hpos : s.positions = some pos)
    (htrig : checkPositionExitConditions config now (updatePositionPrices now price pos) =
      some r) :
    (agentStep config s (AgentEvent.priceUpdate now price)).closeOrdersPlaced =
      s.closeOrdersPlaced + 1 ∧
    (agentStep config s (AgentEvent.priceUpdate now price)).positions =
      some (updatePositionPrices now price pos) := by
  constructor <;> simp [agentStep, hpos, htrig]

/-- Witness for C2 (amended): with a stop-loss close already in flight
(`pendingCloses = [stop_loss]`), a further triggering price update places yet
another close order and leaves the position live. -/
theorem claim_C2_amended_no_closing_guard_witness :
    (agentStep sampleConfig
        { sampleAgentState with pendingCloses := [CloseReason.stop_loss] }
        (AgentEvent.priceUpdate 2000 50)).closeOrdersPlaced =
      ({ sampleAgentState with
          pendingCloses := [CloseReason.stop_loss] } : AgentState).closeOrdersPlaced + 1 ∧
    (agentStep sampleConfig
        { sampleAgentState with pendingCloses := [CloseReason.stop_loss] }
        (AgentEvent.priceUpdate 2000 50)).positions =
      some (updatePositionPrices 2000 50 samplePosition) :=
  claim_C2_amended_no_closing_guard sampleConfig
    { sampleAgentState with pendingCloses := [CloseReason.stop_loss] }
    2000 50 samplePosition CloseReason.stop_loss
    (by norm_num [sampleAgentState])
    (by norm_num [updatePositionPrices, checkPositionExitConditions, samplePosition,
      sampleConfig])

/-- C3, counterexample: `closePosition` deletes the position as soon as the
order-placement call reports success, here while the returned order status is
still `open` — a mere submission acknowledgment, not a CLOSED confirmation —
so after one triggering price update and one successful placement response the
live set is empty, where the claim demands the position to remain until a
CLOSED confirmation arrives. -/
theorem claim_C3_counterexample :
    (agentRun sampleConfig sampleAgentState
        [AgentEvent.priceUpdate 1000 50,
         AgentEvent.closeResponse true ParadexOrderStatus.open_]).positions = none ∧
    (agentRun sampleConfig sampleAgentState
        [AgentEvent.priceUpdate 1000 50,
         AgentEvent.closeResponse true ParadexOrderStatus.open_]).totalTrades = 1 := by
  constructor <;>
    norm_num [agentRun, agentStep, updatePositionPrices, checkPositionExitConditions,
      sampleAgentState, samplePosition, sampleConfig]

/-- C3, amended: the position is removed from the live set as soon as the
close-order placement response reports success — whatever the status of the
returned order — and is kept when the placement fails; no CLOSED confirmation
is awaited. -/
theorem claim_C3_amended_removed_on_ack (config : ScalperConfig) (s : AgentState)
    (r : CloseReason) (rest : List CloseReason) (status : ParadexOrderStatus)
    (hpend : s.pendingCloses = r :: rest) :
    (agentStep config s (AgentEvent.closeResponse true status)).positions = none ∧
    (agentStep config s (AgentEvent.closeResponse false status)).positions = s.positions := by
  constructor <;> simp [agentStep, hpend]

/-- Witness for C3 (amended): concrete instance with one outstanding
stop-loss close and an order whose returned status is still `open`. -/
theorem claim_C3_amended_removed_on_ack_witness :
    (agentStep sampleConfig
        { sampleAgentState with pendingCloses := [CloseReason.stop_loss] }
        (AgentEvent.closeResponse true ParadexOrderStatus.open_)).positions = none ∧
    (agentStep sampleConfig
        { sampleAgentState with pendingCloses := [CloseReason.stop_loss] }
        (AgentEvent.closeResponse false ParadexOrderStatus.open_)).positions =
      ({ sampleAgentState with
          pendingCloses := [CloseReason.stop_loss] } : AgentState).positions :=
  claim_C3_amended_removed_on_ack sampleConfig
    { sampleAgentState with pendingCloses := [CloseReason.stop_loss] }
    CloseReason.stop_loss [] ParadexOrderStatus.open_ (by norm_num [sampleAgentState])

/-- C6, counterexample: `getJWT` has no coalescing of in-flight refreshes —
when two concurrent authenticated callers both pass the cache check before
either refresh response has arrived (the canonical event-loop interleaving:
caller A runs to its awaited request, then caller B runs), each issues its
own `/auth/jwt` request, giving two refresh requests where the claim demands
exactly one. -/
theorem claim_C6_counterexample :
    (jwtSysRun
        { shared := { jwtToken := none, jwtExpiry := none, refreshRequests := 0 },
          pcA := JwtPC.start, pcB := JwtPC.start }
        [JwtEvent.run true 0, JwtEvent.run false 0]).shared.refreshRequests = 2 := by
  decide

/-- C6, amended: concurrent refreshes are not coalesced: every caller whose
cache check fails (token absent or within the 60 s refresh skew of expiry)
issues its own refresh request, even when another caller is already awaiting
a refresh. -/
theorem claim_C6_amended_no_coalescing (shared : JwtClientState) (pcB : JwtPC) (now : ℤ)
    (hinvalid : jwtCacheValid shared now = false) :
    (jwtSysStep { shared := shared, pcA := JwtPC.start, pcB := pcB }
        (JwtEvent.run true now)).shared.refreshRequests = shared.refreshRequests + 1 ∧
    (jwtSysStep { shared := shared, pcA := JwtPC.start, pcB := pcB }
        (JwtEvent.run true now)).pcA = JwtPC.awaiting := by
  constructor <;> simp [jwtSysStep, jwtStartSegment, hinvalid]

/-- Witness for C6 (amended): with an empty cache and caller B already
awaiting a refresh, caller A still issues a second refresh request. -/
theorem claim_C6_amended_no_coalescing_witness :
    (jwtSysStep
        { shared := { jwtToken := none, jwtExpiry := none, refreshRequests := 1 },
          pcA := JwtPC.start, pcB := JwtPC.awaiting }
        (JwtEvent.run true 0)).shared.refreshRequests =
      ({ jwtToken := none, jwtExpiry := none, refreshRequests := 1 } :
        JwtClientState).refreshRequests + 1 ∧
    (jwtSysStep
        { shared := { jwtToken := none, jwtExpiry := none, refreshRequests := 1 },
          pcA := JwtPC.start, pcB := JwtPC.awaiting }
        (JwtEvent.run true 0)).pcA = JwtPC.awaiting :=
  claim_C6_amended_no_coalescing
    { jwtToken := none, jwtExpiry := none, refreshRequests := 1 }
    JwtPC.awaiting 0 (by decide)

/-- Helper: `closeKline` keeps every market history within `maxKlines`. -/
theorem closeKline_klines_length_le (maxKlines : ℕ) (market : Market) (k : Kline)
    (s : BuilderState) (h : ∀ m, (s.klines m).length ≤ maxKlines) :
    ∀ m, ((closeKline maxKlines market k s).klines m).length ≤ maxKlines := by
  intro m
  simp only [closeKline]
  by_cases hm : m = market
  · rw [if_pos hm]
    by_cases hl : (s.klines market ++ [k]).length > maxKlines
    · rw [if_pos hl]
      have := h market
      simp only [List.length_tail, List.length_append, List.length_cons,
        List.length_nil] at *
      omega
    · rw [if_neg hl]
      simp only [List.length_append, List.length_cons, List.length_nil] at *
      omega
  · rw [if_neg hm]
    exact h m

/-- Helper: `processTrade` keeps every market history within `maxKlines`. -/
theorem processTrade_klines_length_le (intervalMs : ℤ) (maxKlines : ℕ)
    (s : BuilderState) (t : ParadexTrade)
    (h : ∀ m, (s.klines m).length ≤ maxKlines) :
    ∀ m, ((processTrade intervalMs maxKlines s t).klines m).length ≤ maxKlines := by
  intro m
  cases hck : s.currentKline t.market with
  | none =>
    simp only [processTrade, hck]
    exact h m
  | some ck =>
    simp only [processTrade, hck]
    by_cases heq : ck.openTime = getKlineStartTime intervalMs t.timestamp
    · rw [if_pos heq]
      exact h m
    · rw [if_neg heq]
      exact closeKline_klines_length_le maxKlines t.market ck s h m

/-- Helper: the history bound is preserved along any trade sequence. -/
theorem foldl_processTrade_klines_length_le (intervalMs : ℤ) (maxKlines : ℕ) :
    ∀ (trades : List ParadexTrade) (s : BuilderState),
      (∀ m, (s.klines m).length ≤ maxKlines) →
      ∀ m,
        ((trades.foldl (processTrade intervalMs maxKlines) s).klines m).length ≤ maxKlines
  | [], _, h, m => h m
  | t :: ts, s, h, m =>
    foldl_processTrade_klines_length_le intervalMs maxKlines ts
      (processTrade intervalMs maxKlines s t)
      (processTrade_klines_length_le intervalMs maxKlines s t h) m

/-- Helper: JavaScript `Math.floor` division agrees with `Int.fdiv` for a
positive divisor, expressed through the rational floor. -/
theorem fdiv_eq_floor_div (ts i : ℤ) (hi : 0 < i) :
    Int.fdiv ts i = ⌊(ts : ℚ) / (i : ℚ)⌋ := by
  have h0 : ((i.toNat : ℕ) : ℤ) = i := Int.toNat_of_nonneg hi.le
  rw [Int.fdiv_eq_ediv _ hi.le, ← h0]
  push_cast
  exact (Rat.floor_intCast_div_natCast ts i.toNat).symm

/-- C5: the bucket of a trade is `floor(timestamp / intervalMs) * intervalMs`;
a trade whose bucket matches the open candle updates
`high = max(high, price)`, `low = min(low, price)`, `close = price`,
`volume += size` and leaves all histories untouched; a trade whose bucket
differs closes the previous candle through `closeKline` and opens a fresh
candle `open = high = low = close = price`, `volume = size`; and the concrete
two-trade scenario at interval 60000 ms produces exactly the claimed closed
and open candles. -/
theorem claim_C5_bucket_update_rules :
    (∀ (intervalMs timestamp : ℤ), 0 < intervalMs →
      getKlineStartTime intervalMs timestamp =
        ⌊(timestamp : ℚ) / (intervalMs : ℚ)⌋ * intervalMs) ∧
    (∀ (intervalMs : ℤ) (maxKlines : ℕ) (s : BuilderState) (t : ParadexTrade) (ck : Kline),
      s.currentKline t.market = some ck →
      ck.openTime = getKlineStartTime intervalMs t.timestamp →
      (processTrade intervalMs maxKlines s t).currentKline t.market =
        some { ck with
          high := max ck.high t.price
          low := min ck.low t.price
          close := t.price
          volume := ck.volume + t.size } ∧
      (processTrade intervalMs maxKlines s t).klines = s.klines) ∧
    (∀ (intervalMs : ℤ) (maxKlines : ℕ) (s : BuilderState) (t : ParadexTrade) (ck : Kline),
      s.currentKline t.market = some ck →
      ck.openTime ≠ getKlineStartTime intervalMs t.timestamp →
      (processTrade intervalMs maxKlines s t).currentKline t.market =
        some { openTime := getKlineStartTime intervalMs t.timestamp, openP := t.price,
               high := t.price, low := t.price, close := t.price, volume := t.size,
               closeTime := getKlineStartTime intervalMs t.timestamp + intervalMs - 1 } ∧
      (processTrade intervalMs maxKlines s t).klines =
        (closeKline maxKlines t.market ck s).klines) ∧
    ((processTrade 60000 100
        (processTrade 60000 100 initialBuilder
          { market := "BTC-USD-PERP", price := 10, size := 1, timestamp := 1000 })
        { market := "BTC-USD-PERP", price := 11, size := 2, timestamp := 61000 }).klines
          "BTC-USD-PERP" =
        [{ openTime := 0, openP := 10, high := 10, low := 10, close := 10, volume := 1,
           closeTime := 59999 }] ∧
      (processTrade 60000 100
        (processTrade 60000 100 initialBuilder
          { market := "BTC-USD-PERP", price := 10, size := 1, timestamp := 1000 })
        { market := "BTC-USD-PERP", price := 11, size := 2, timestamp := 61000 }).currentKline
          "BTC-USD-PERP" =
        some { openTime := 60000, openP := 11, high := 11, low := 11, close := 11,
               volume := 2, closeTime := 119999 }) := by
  refine ⟨?_, ?_, ?_, ?_, ?_⟩
  · intro i ts hi
    unfold getKlineStartTime
    rw [fdiv_eq_floor_div ts i hi]
  · intro i mk s t ck hck heq
    constructor
    · simp only [processTrade, hck]
      rw [if_pos heq]
      simp
    · simp only [processTrade, hck]
      rw [if_pos heq]
  · intro i mk s t ck hck hne
    constructor
    · simp only [processTrade, hck]
      rw [if_neg hne]
      simp
    · simp only [processTrade, hck]
      rw [if_neg hne]
  · decide
  · decide

/-- Witness for C5: the bucket formula at interval 60000 and timestamp 61000,
an in-bucket update on the candle opened by the first scenario trade, and the
bucket-change transition of the second scenario trade. -/
theorem claim_C5_bucket_update_rules_witness :
    getKlineStartTime 60000 61000 = ⌊(61000 : ℚ) / (60000 : ℚ)⌋ * 60000 ∧
    ((processTrade 60000 100
        (processTrade 60000 100 initialBuilder
          { market := "BTC-USD-PERP", price := 10, size := 1, timestamp := 1000 })
        { market := "BTC-USD-PERP", price := 12, size := 3, timestamp := 2000 }).currentKline
          "BTC-USD-PERP" =
      some { openTime := 0, openP := 10, high := max 10 12, low := min 10 12, close := 12,
             volume := 1 + 3, closeTime := 59999 }) ∧
    ((processTrade 60000 100
        (processTrade 60000 100 initialBuilder
          { market := "BTC-USD-PERP", price := 10, size := 1, timestamp := 1000 })
        { market := "BTC-USD-PERP", price := 11, size := 2, timestamp := 61000 }).currentKline
          "BTC-USD-PERP" =
      some { openTime := getKlineStartTime 60000 61000, openP := 11, high := 11, low := 11,
             close := 11, volume := 2, closeTime := getKlineStartTime 60000 61000 + 60000 - 1 }) :=
  ⟨claim_C5_bucket_update_rules.1 60000 61000 (by decide),
   (claim_C5_bucket_update_rules.2.1 60000 100
      (processTrade 60000 100 initialBuilder
        { market := "BTC-USD-PERP", price := 10, size := 1, timestamp := 1000 })
      { market := "BTC-USD-PERP", price := 12, size := 3, timestamp := 2000 }
      { openTime := 0, openP := 10, high := 10, low := 10, close := 10, volume := 1,
        closeTime := 59999 }
      (by decide) (by decide)).1,
   (claim_C5_bucket_update_rules.2.2.1 60000 100
      (processTrade 60000 100 initialBuilder
        { market := "BTC-USD-PERP", price := 10, size := 1, timestamp := 1000 })
      { market := "BTC-USD-PERP", price := 11, size := 2, timestamp := 61000 }
      { openTime := 0, openP := 10, high := 10, low := 10, close := 10, volume := 1,
        closeTime := 59999 }
      (by decide) (by decide)).1⟩

/-- C7: for every trade sequence the closed-candle history of every symbol
stays within `maxKlines`, and when the history already holds `maxKlines`
entries, closing one more candle drops exactly the oldest entry and appends
the new candle at the newest end. -/
theorem claim_C7_bounded_fifo :
    (∀ (intervalMs : ℤ) (maxKlines : ℕ) (trades : List ParadexTrade) (m : Market),
      ((trades.foldl (processTrade intervalMs maxKlines) initialBuilder).klines m).length ≤
        maxKlines) ∧
    (∀ (maxKlines : ℕ) (m : Market) (k : Kline) (s : BuilderState),
      0 < maxKlines → (s.klines m).length = maxKlines →
      (closeKline maxKlines m k s).klines m = (s.klines m).tail ++ [k]) := by
  constructor
  · intro i mk trades m
    exact foldl_processTrade_klines_length_le i mk trades initialBuilder
      (fun _ => Nat.zero_le _) m
  · intro mk m k s hpos hlen
    simp only [closeKline, if_pos rfl]
    have hgt : (s.klines m ++ [k]).length > mk := by
      simp [hlen]
    rw [if_pos hgt]
    cases hsk : s.klines m with
    | nil =>
      rw [hsk] at hlen
      simp at hlen
      omega
    | cons a l => simp

/-- Witness for C7: a three-trade run at `maxKlines = 1` stays within the
bound, and closing a candle onto a full one-entry history drops that entry
and keeps only the new candle. -/
theorem claim_C7_bounded_fifo_witness :
    ((([{ market := "BTC-USD-PERP", price := 10, size := 1, timestamp := 1000 },
        { market := "BTC-USD-PERP", price := 11, size := 2, timestamp := 61000 },
        { market := "BTC-USD-PERP", price := 12, size := 3, timestamp := 121000 }] :
         List ParadexTrade).foldl (processTrade 60000 1) initialBuilder).klines
        "BTC-USD-PERP").length ≤ 1 ∧
    (closeKline 1 "BTC-USD-PERP"
        { openTime := 60000, openP := 11, high := 11, low := 11, close := 11, volume := 2,
          closeTime := 119999 }
        { klines := fun _ =>
            [{ openTime := 0, openP := 10, high := 10, low := 10, close := 10, volume := 1,
               closeTime := 59999 }],
          currentKline := fun _ => none }).klines "BTC-USD-PERP" =
      ([{ openTime := 0, openP := 10, high := 10, low := 10, close := 10, volume := 1,
          closeTime := 59999 }] : List Kline).tail ++
        [{ openTime := 60000, openP := 11, high := 11, low := 11, close := 11, volume := 2,
           closeTime := 119999 }] :=
  ⟨claim_C7_bounded_fifo.1 60000 1 _ "BTC-USD-PERP",
   claim_C7_bounded_fifo.2 1 "BTC-USD-PERP" _ _ (by decide) rfl⟩

/-- C4, counterexample: with an open candle at bucket 60000, a late trade in
bucket 0 is not folded into that open candle (which the claim predicts would
become high 11, low 10, close 10, volume 3 at openTime 60000); instead the
code closes the bucket-60000 candle into history and opens a fresh candle at
the old bucket 0. -/
theorem claim_C4_counterexample :
    ((processTrade 60000 100
        (processTrade 60000 100 initialBuilder
          { market := "BTC-USD-PERP", price := 11, size := 2, timestamp := 61000 })
        { market := "BTC-USD-PERP", price := 10, size := 1, timestamp := 1000 }).currentKline
          "BTC-USD-PERP" ≠
      some { openTime := 60000, openP := 11, high := 11, low := 10, close := 10, volume := 3,
             closeTime := 119999 }) ∧
    ((processTrade 60000 100
        (processTrade 60000 100 initialBuilder
          { market := "BTC-USD-PERP", price := 11, size := 2, timestamp := 61000 })
        { market := "BTC-USD-PERP", price := 10, size := 1, timestamp := 1000 }).currentKline
          "BTC-USD-PERP" =
      some { openTime := 0, openP := 10, high := 10, low := 10, close := 10, volume := 1,
             closeTime := 59999 }) ∧
    ((processTrade 60000 100
        (processTrade 60000 100 initialBuilder
          { market := "BTC-USD-PERP", price := 11, size := 2, timestamp := 61000 })
        { market := "BTC-USD-PERP", price := 10, size := 1, timestamp := 1000 }).klines
          "BTC-USD-PERP" =
      [{ openTime := 60000, openP := 11, high := 11, low := 11, close := 11, volume := 2,
         closeTime := 119999 }]) := by
  refine ⟨?_, ?_, ?_⟩ <;> decide

/-- C4, amended: a late trade whose bucket is strictly older than the open
candle closes the current open candle into history (evicting at most the
oldest entry) and opens a fresh candle at the late bucket; the candles
already in history are never reopened or modified — the new history is a
suffix of the old history with the just-closed candle appended. -/
theorem claim_C4_amended_late_trade (intervalMs : ℤ) (maxKlines : ℕ)
    (s : BuilderState) (t : ParadexTrade) (ck : Kline)
    (hmk : 0 < maxKlines)
    (hck : s.currentKline t.market = some ck)
    (hlate : getKlineStartTime intervalMs t.timestamp < ck.openTime) :
    (processTrade intervalMs maxKlines s t).currentKline t.market =
      some { openTime := getKlineStartTime intervalMs t.timestamp, openP := t.price,
             high := t.price, low := t.price, close := t.price, volume := t.size,
             closeTime := getKlineStartTime intervalMs t.timestamp + intervalMs - 1 } ∧
    ((processTrade intervalMs maxKlines s t).klines t.market).getLast? = some ck ∧
    (processTrade intervalMs maxKlines s t).klines t.market <:+ s.klines t.market ++ [ck] := by
  have hne : ck.openTime ≠ getKlineStartTime intervalMs t.timestamp := (ne_of_gt hlate)
  refine ⟨?_, ?_, ?_⟩
  · simp only [processTrade, hck]
    rw [if_neg hne]
    simp
  · simp only [processTrade, hck]
    rw [if_neg hne]
    simp only [closeKline, if_pos rfl]
    by_cases hl : (s.klines t.market ++ [ck]).length > maxKlines
    · rw [if_pos hl]
      cases hsk : s.klines t.market with
      | nil =>
        rw [hsk] at hl
        simp at hl
        omega
      | cons a l => simp
    · rw [if_neg hl]
      exact List.getLast?_concat _
  · simp only [processTrade, hck]
    rw [if_neg hne]
    simp only [closeKline, if_pos rfl]
    by_cases hl : (s.klines t.market ++ [ck]).length > maxKlines
    · rw [if_pos hl]
      exact List.tail_suffix _
    · rw [if_neg hl]
      exact List.suffix_refl _

/-- Witness for C4 (amended): the concrete late-trade run — open candle at
bucket 60000, late trade in bucket 0 — yields a fresh open candle at bucket 0,
the previous open candle as the newest history entry, and a history that is a
suffix of the old history plus that candle. -/
theorem claim_C4_amended_late_trade_witness :
    (processTrade 60000 100
        (processTrade 60000 100 initialBuilder
          { market := "BTC-USD-PERP", price := 11, size := 2, timestamp := 61000 })
        { market := "BTC-USD-PERP", price := 10, size := 1, timestamp := 1000 }).currentKline
        "BTC-USD-PERP" =
      some { openTime := getKlineStartTime 60000 1000, openP := 10, high := 10, low := 10,
             close := 10, volume := 1, closeTime := getKlineStartTime 60000 1000 + 60000 - 1 } ∧
    ((processTrade 60000 100
        (processTrade 60000 100 initialBuilder
          { market := "BTC-USD-PERP", price := 11, size := 2, timestamp := 61000 })
        { market := "BTC-USD-PERP", price := 10, size := 1, timestamp := 1000 }).klines
        "BTC-USD-PERP").getLast? =
      some { openTime := 60000, openP := 11, high := 11, low := 11, close := 11, volume := 2,
             closeTime := 119999 } ∧
    (processTrade 60000 100
        (processTrade 60000 100 initialBuilder
          { market := "BTC-USD-PERP", price := 11, size := 2, timestamp := 61000 })
        { market := "BTC-USD-PERP", price := 10, size := 1, timestamp := 1000 }).klines
        "BTC-USD-PERP" <:+
      (processTrade 60000 100 initialBuilder
          { market := "BTC-USD-PERP", price := 11, size := 2, timestamp := 61000 }).klines
          "BTC-USD-PERP" ++
        [{ openTime := 60000, openP := 11, high := 11, low := 11, close := 11, volume := 2,
           closeTime := 119999 }] :=
  claim_C4_amended_late_trade 60000 100
    (processTrade 60000 100 initialBuilder
      { market := "BTC-USD-PERP", price := 11, size := 2, timestamp := 61000 })
    { market := "BTC-USD-PERP", price := 10, size := 1, timestamp := 1000 }
    { openTime := 60000, openP := 11, high := 11, low := 11, close := 11, volume := 2,
      closeTime := 119999 }
    (by decide) (by decide) (by decide)

end FlashScalper
